import Mathlib

/-!
# ADF41020 SPI sweep controller — verification development

Shallow embedding of `ADF4ADF41020_SPI_SMALL_SWEEP_REG_GEN.ino` (the sweep
register-generator sketch; line numbers below refer to that file).

Modelling conventions:

* Arduino `float`/`double` arithmetic is modelled over `ℚ`.  Every
  intermediate value the sketch computes in its operating range is a
  nonnegative integer (or quarter-integer) below `2 ^ 24`, hence exactly
  representable in single-precision float, so exact rational arithmetic
  agrees with the source bit for bit there.
* C casts `(int)`/`(long)` of a float truncate toward zero: `cint`.
* C `int` is modelled as unbounded `ℤ`; the bit-mask operations
  (`R & 0x3FFF`, `B & 0x1FFF`, `A & 0x3F`) are performed on the 16-bit
  two's-complement bit pattern of the AVR `int`, see `intMask`.
* `byte` values are `ℕ` reduced `% 256` at the points the source applies
  `lowByte`; `x >> k` on a nonnegative value is `x / 2 ^ k`.
* Side effects (SPI byte transfers, PORTD writes driving LE and SI,
  delays, serial prints) are modelled as explicit event traces.
  `PORTD = B11000000` asserts LE (pin 7) and SI (pin 6);
  `PORTD = B10000000` asserts LE only; `PORTD = B00000000` de-asserts both.
* The fatal-error idiom `while(true){ delay(1); }` produces no further
  observable bus or serial activity; it is modelled as the end of the
  event trace.
-/

namespace ADF41020

/-! ## Configuration constants (lines 41-70) -/

/-- `#define DWELL_TIME 1000` (µs), line 41. -/
def DWELL_TIME : ℕ := 1000

/-- `#define SWEEP_PAUSE 0` (µs), line 45. -/
def SWEEP_PAUSE : ℕ := 0

/-- `#define PULSE_DURATION 500` (µs), line 49. -/
def PULSE_DURATION : ℕ := 500

/-- `#define LONG_DELAY 100` (ms), line 54. -/
def LONG_DELAY : ℕ := 100

/-- `#define DO_LONG_DELAY false`, line 59. -/
def DO_LONG_DELAY : Bool := false

/-- `#define RFInputFrequency 100` (MHz), line 67. -/
def RFInputFrequency : ℚ := 100

/-- `#define PFDFrequency 1250` (MHz), line 70. -/
def PFDFrequency : ℚ := 1250

/-- The frequency vector (MHz), lines 73-134: 60 entries, 10415 to 13070
in steps of 45. -/
def freqVec : List ℚ :=
  [10415, 10460, 10505, 10550, 10595, 10640, 10685, 10730, 10775, 10820,
   10865, 10910, 10955, 11000, 11045, 11090, 11135, 11180, 11225, 11270,
   11315, 11360, 11405, 11450, 11495, 11540, 11585, 11630, 11675, 11720,
   11765, 11810, 11855, 11900, 11945, 11990, 12035, 12080, 12125, 12170,
   12215, 12260, 12305, 12350, 12395, 12440, 12485, 12530, 12575, 12620,
   12665, 12710, 12755, 12800, 12845, 12890, 12935, 12980, 13025, 13070]

/-- `byte N2 = 0x00`, line 147: the constant most-significant byte of every
transmitted N-counter word. -/
def N2 : ℕ := 0x00

/-! ## Fixed sweep configuration inside `calcRegisters` (lines 298-313) -/

def PrescalerBoxIndex : ℕ := 1
def ChargePumpSetting1SelectedIndex : ℕ := 3
def ChargePumpSetting2SelectedIndex : ℕ := 3
def ChargePumpGainBoxSelectedIndex : ℕ := 0
def ChargePump3StateBoxSelectedIndex : ℕ := 0
def FastLockBoxSelectedIndex : ℕ := 0
def TimeoutBoxSelectedIndex : ℕ := 0
def PhaseDetectorPolarityBoxSelectedIndex : ℕ := 0
def CounterResetBoxSelectedIndex : ℕ := 0
def LockDetectPrecisionBoxSelectedIndex : ℕ := 0
def PowerDownBoxSelectedIndex : ℕ := 0
def ABPWBoxSelectedIndex : ℕ := 0
def SyncBoxSelectedIndex : ℕ := 0
def DelayBoxSelectedIndex : ℕ := 0
def MuxoutBoxSelectedIndex : ℕ := 0
def TestmodesBoxSelectedIndex : ℕ := 1

/-- `if (Fastlock==2) Fastlock++;`, line 338. -/
def Fastlock : ℕ :=
  if FastLockBoxSelectedIndex = 2 then FastLockBoxSelectedIndex + 1
  else FastLockBoxSelectedIndex

/-- `if (Powerdown==2) Powerdown++;`, line 347. -/
def Powerdown : ℕ :=
  if PowerDownBoxSelectedIndex = 2 then PowerDownBoxSelectedIndex + 1
  else PowerDownBoxSelectedIndex

/-! ## Register arithmetic (lines 317-359) -/

/-- C cast of a float value to an integer type: truncation toward zero. -/
def cint (q : ℚ) : ℤ := if 0 ≤ q then ⌊q⌋ else -⌊-q⌋

/-- Bitwise `&` between a 16-bit AVR `int` (two's-complement bit pattern)
and a mask constant. -/
def intMask (x : ℤ) (m : ℕ) : ℕ := (x % 65536).toNat &&& m

/-- `lowByte(x)` for a nonnegative value. -/
def lowByte (x : ℕ) : ℕ := x % 256

/-- `RFout = RFout/4;`, line 321: the fixed /4 output prescale stage. -/
def effectiveRFout (RFOutFreqBox : ℚ) : ℚ := RFOutFreqBox / 4

/-- `int P = (int)pow(2,PrescalerBoxIndex) * 8;`, line 324. -/
def calcP : ℤ := 2 ^ PrescalerBoxIndex * 8

/-- `int R = (int)(REFin*1000/PFDFreq);`, line 325. -/
def calcR (REFin PFDFreq : ℚ) : ℤ := cint (REFin * 1000 / PFDFreq)

/-- `int N = (int)(RFout*1000/PFDFreq);`, line 326 (with `RFout` already
divided by 4 at line 321). -/
def calcN (RFOutFreqBox PFDFreq : ℚ) : ℤ :=
  cint (effectiveRFout RFOutFreqBox * 1000 / PFDFreq)

/-- `int B = (int)(N/P);`, line 327: C `int` division truncates toward
zero. -/
def calcB (RFOutFreqBox PFDFreq : ℚ) : ℤ :=
  Int.tdiv (calcN RFOutFreqBox PFDFreq) calcP

/-- `int A = (int)(N-(B*P));`, line 328. -/
def calcA (RFOutFreqBox PFDFreq : ℚ) : ℤ :=
  calcN RFOutFreqBox PFDFreq - calcB RFOutFreqBox PFDFreq * calcP

/-- `Reg[0]`, line 357: reference (R-counter) latch word. -/
def reg0Val (REFin PFDFreq : ℚ) : ℕ :=
  2 ^ 23 + 2 ^ 20 + TestmodesBoxSelectedIndex * 2 ^ 16
    + intMask (calcR REFin PFDFreq) 0x3FFF * 2 ^ 2

/-- `Reg[1]`, line 358: feedback (N-counter) latch word. -/
def reg1Val (RFOutFreqBox PFDFreq : ℚ) : ℕ :=
  ChargePumpGainBoxSelectedIndex * 2 ^ 21
    + intMask (calcB RFOutFreqBox PFDFreq) 0x1FFF * 2 ^ 8
    + intMask (calcA RFOutFreqBox PFDFreq) 0x3F * 2 ^ 2 + 1

/-- `Reg[2]`, line 359: function latch word.  It depends only on the fixed
configuration fields, not on any frequency input. -/
def reg2Val : ℕ :=
  PrescalerBoxIndex * 2 ^ 22 + ChargePumpSetting2SelectedIndex * 2 ^ 18
    + ChargePumpSetting1SelectedIndex * 2 ^ 15 + TimeoutBoxSelectedIndex * 2 ^ 11
    + Fastlock * 2 ^ 9 + ChargePump3StateBoxSelectedIndex * 2 ^ 8
    + PhaseDetectorPolarityBoxSelectedIndex * 2 ^ 7 + MuxoutBoxSelectedIndex * 2 ^ 4
    + Powerdown * 2 ^ 3 + CounterResetBoxSelectedIndex * 2 ^ 2 + 2

/-! ## Global mutable state (lines 141-189) -/

/-- The global byte arrays and scalars the sketch mutates.  Lists have the
length of `freqVec`; all cells are zero-initialised (C statics). -/
structure PLLState where
  N0 : List ℕ
  N1 : List ℕ
  R0A : List ℕ
  R1A : List ℕ
  R2A : List ℕ
  F0A : List ℕ
  F1A : List ℕ
  F2A : List ℕ
  R0 : ℕ
  R1 : ℕ
  R2 : ℕ
  F0 : ℕ
  F1 : ℕ
  F2 : ℕ
deriving DecidableEq

/-- Zero-initialised global state for a frequency list of length `n`. -/
def initState (n : ℕ) : PLLState :=
  { N0 := List.replicate n 0, N1 := List.replicate n 0
    R0A := List.replicate n 0, R1A := List.replicate n 0, R2A := List.replicate n 0
    F0A := List.replicate n 0, F1A := List.replicate n 0, F2A := List.replicate n 0
    R0 := 0, R1 := 0, R2 := 0, F0 := 0, F1 := 0, F2 := 0 }

/-- `void calcRegisters(float RFOutFreqBox, float RefFreqBox, float
PFDFreqBox, int i)`, lines 295-387.  Writes `N0[i]`, `N1[i]` (lines
362-365), the scalars `R0..R2`, `F0..F2` when `i == 0` (lines 368-376),
and `R0A[i]`, `R1A[i]`, `R2A[i]` (lines 379-385).  Note: the function
never writes `F0A`, `F1A` or `F2A`, although the comments at their
declarations (lines 182-189) say they are "to be populated by
CalcRegisters". -/
def calcRegisters (RFOutFreqBox RefFreqBox PFDFreqBox : ℚ) (i : ℕ)
    (s : PLLState) : PLLState :=
  let reg0 := reg0Val RefFreqBox PFDFreqBox
  let reg1 := reg1Val RFOutFreqBox PFDFreqBox
  let s1 := { s with N0 := s.N0.set i (lowByte reg1),
                     N1 := s.N1.set i (lowByte (reg1 / 2 ^ 8)) }
  let s2 :=
    if i = 0 then
      { s1 with R0 := lowByte reg0, R1 := lowByte (reg0 / 2 ^ 8),
                R2 := lowByte (reg0 / 2 ^ 16),
                F0 := lowByte reg2Val, F1 := lowByte (reg2Val / 2 ^ 8),
                F2 := lowByte (reg2Val / 2 ^ 16) }
    else s1
  { s2 with R0A := s2.R0A.set i (lowByte reg0),
            R1A := s2.R1A.set i (lowByte (reg0 / 2 ^ 8)),
            R2A := s2.R2A.set i (lowByte (reg0 / 2 ^ 16)) }

/-! ## Observable events -/

/-- `SPI.setBitOrder` argument (line 235). -/
inductive BitOrder
  | MSBFIRST
  | LSBFIRST
deriving DecidableEq

/-- `SPI.setDataMode` argument (line 238).  `MODE0`: data sampled on the
rising edge, clock idle low. -/
inductive DataMode
  | MODE0
  | MODE1
  | MODE2
  | MODE3
deriving DecidableEq

/-- The two fatal diagnostics printed by `setup` (lines 214 and 222). -/
inductive FailMsg
  | rcounterChanged
  | functionLatchChanged
deriving DecidableEq

/-- Observable effects of the sketch, in program order. -/
inductive Event
  | pinDirConfig                -- `DDRD = DDRD | B11000000`, line 202
  | portWrite (le si : Bool)    -- `PORTD = ...`: LE on pin 7, SI on pin 6
  | serialBegin (baud : ℕ)      -- `Serial.begin(9600)`, line 208
  | serialPrint (msg : FailMsg) -- `Serial.println(...)`
  | spiBegin                    -- `SPI.begin()`, line 232
  | spiSetBitOrder (o : BitOrder)
  | spiSetDataMode (m : DataMode)
  | spiSetClockDiv (d : ℕ)      -- `SPI_CLOCK_DIV2` = divide by 2
  | spiByte (b : ℕ)             -- `SPI.transfer(b)`
  | delayUs (us : ℕ)            -- `delayMicroseconds(us)`
  | delayMs (ms : ℕ)            -- `delay(ms)`
deriving DecidableEq

/-- `void delayer(int delval)`, lines 393-398. -/
def delayer (delval : ℕ) : List Event :=
  (if DO_LONG_DELAY then [Event.delayMs LONG_DELAY] else [])
    ++ [Event.delayUs delval]

/-- `void SPIwrite24bitRegister(byte b23to16, byte b15to8, byte b7to0,
boolean NewFrame)`, lines 403-425: the effect trace of one 24-bit latch
transmission. -/
def SPIwrite24bitRegister (b23to16 b15to8 b7to0 : ℕ) (NewFrame : Bool) :
    List Event :=
  [Event.spiByte b23to16, Event.spiByte b15to8, Event.spiByte b7to0,
   Event.portWrite true NewFrame,
   Event.delayUs PULSE_DURATION,
   Event.portWrite false false]
    ++ delayer (DWELL_TIME - PULSE_DURATION)

/-! ## setup (lines 196-271) -/

/-- Outcome of the validation pass at the top of `setup` (lines 210-229):
either a fatal halt with the printed diagnostic, or the populated state. -/
inductive SetupOutcome
  | fatal (msg : FailMsg) (st : PLLState)
  | ok (st : PLLState)
deriving DecidableEq

/-- The printed diagnostic of a fatal outcome, if any. -/
def outcomeMsg : SetupOutcome → Option FailMsg
  | .fatal m _ => some m
  | .ok _ => none

/-- The `for` loop of `setup`, lines 211-229: populate the arrays via
`calcRegisters`, then compare the scalar R / Function latch bytes captured
at step 0 against the per-step arrays; halt on the first mismatch. -/
def validateLoop : List ℚ → ℕ → PLLState → SetupOutcome
  | [], _, s => .ok s
  | f :: rest, i, s =>
    let s1 := calcRegisters f RFInputFrequency PFDFrequency i s
    if s1.R0 ≠ s1.R0A.getD i 0 ∨ s1.R1 ≠ s1.R1A.getD i 0 ∨ s1.R2 ≠ s1.R2A.getD i 0 then
      .fatal .rcounterChanged s1
    else if s1.F0 ≠ s1.F0A.getD i 0 ∨ s1.F1 ≠ s1.F1A.getD i 0 ∨ s1.F2 ≠ s1.F2A.getD i 0 then
      .fatal .functionLatchChanged s1
    else
      validateLoop rest (i + 1) s1

/-- The validation pass of `setup` run from the zero-initialised globals
on a frequency list. -/
def validateRun (fs : List ℚ) : SetupOutcome :=
  validateLoop fs 0 (initState fs.length)

/-- Events of `setup` preceding the validation loop (lines 202-208). -/
def preEvents : List Event :=
  [Event.pinDirConfig, Event.portWrite false false, Event.serialBegin 9600]

/-- Events of `setup` after the validation loop passes (lines 231-271):
SPI configuration, initial pause, then the function latch word and the
reference latch word, each shifted out and latched without SI. -/
def setupOkTrace (st : PLLState) : List Event :=
  [Event.spiBegin, Event.spiSetBitOrder BitOrder.MSBFIRST,
   Event.spiSetDataMode DataMode.MODE0, Event.spiSetClockDiv 2]
    ++ delayer SWEEP_PAUSE
    ++ [Event.spiByte st.F2, Event.spiByte st.F1, Event.spiByte st.F0,
        Event.portWrite true false,
        Event.delayUs PULSE_DURATION,
        Event.portWrite false false]
    ++ delayer (DWELL_TIME - PULSE_DURATION)
    ++ [Event.spiByte st.R2, Event.spiByte st.R1, Event.spiByte st.R0,
        Event.portWrite true false,
        Event.delayUs PULSE_DURATION,
        Event.portWrite false false]
    ++ delayer (DWELL_TIME - PULSE_DURATION)

/-! ## The main loop (lines 430-443) -/

/-- One call of the main loop to `SPIwrite24bitRegister`, at the argument
level. -/
structure FeedbackTx where
  b23to16 : ℕ
  b15to8 : ℕ
  b7to0 : ℕ
  NewFrame : Bool
deriving DecidableEq

def dummyTx : FeedbackTx := { b23to16 := 0, b15to8 := 0, b7to0 := 0, NewFrame := false }

/-- The `SPIwrite24bitRegister` calls one iteration of `loop` issues
(lines 433-441): every table entry in order with `NewFrame` true exactly
on `i == 0`, then the first entry once more with `NewFrame` false. -/
def loopPassCalls (s : PLLState) : List FeedbackTx :=
  ((List.range s.N0.length).map fun i =>
    { b23to16 := N2, b15to8 := s.N1.getD i 0, b7to0 := s.N0.getD i 0,
      NewFrame := i == 0 })
    ++ [{ b23to16 := N2, b15to8 := s.N1.getD 0 0, b7to0 := s.N0.getD 0 0,
          NewFrame := false }]

/-- Event trace of one `SPIwrite24bitRegister` call. -/
def txTrace (t : FeedbackTx) : List Event :=
  SPIwrite24bitRegister t.b23to16 t.b15to8 t.b7to0 t.NewFrame

/-- Event trace of one iteration of `loop`: the transmissions, then
`delayer(SWEEP_PAUSE)` (line 442). -/
def loopPassTrace (s : PLLState) : List Event :=
  (loopPassCalls s).flatMap txTrace ++ delayer SWEEP_PAUSE

/-- Observable trace of a whole run executing `passes` iterations of
`loop`: the pre-validation events, then either the fatal diagnostic (the
halt loop emits nothing further), or the rest of `setup` followed by the
loop passes. -/
def programTrace (fs : List ℚ) (passes : ℕ) : List Event :=
  match validateRun fs with
  | .fatal m _ => preEvents ++ [Event.serialPrint m]
  | .ok st => preEvents ++ setupOkTrace st
      ++ (List.replicate passes (loopPassTrace st)).flatten

/-- An event that drives the chip-facing bus: an SPI data byte, or a
PORTD write asserting LE or SI. -/
def busDrive : Event → Bool
  | .spiByte _ => true
  | .portWrite le si => le || si
  | _ => false

/-! ## Helper lemmas -/

lemma set_getD_ne (l : List ℕ) (i j a : ℕ) (h : i ≠ j) :
    (l.set i a).getD j 0 = l.getD j 0 := by
  simp [List.getD, List.getElem?_set_ne h]

lemma range_map_getD {α : Type} (n j : ℕ) (f : ℕ → α) (d : α) (h : j < n) :
    ((List.range n).map f).getD j d = f j := by
  simp [List.getD, List.getElem?_map, List.getElem?_range h]

/-- Concrete evaluation: `R = (int)(100*1000/1250) = 80`. -/
lemma calcR_value : calcR RFInputFrequency PFDFrequency = 80 := by
  norm_num [calcR, RFInputFrequency, PFDFrequency, cint]

/-- Concrete evaluation: `N = (int)((10415/4)*1000/1250) = 2083`. -/
lemma calcN_10415 : calcN 10415 PFDFrequency = 2083 := by
  norm_num [calcN, effectiveRFout, PFDFrequency, cint]

lemma calcB_10415 : calcB 10415 PFDFrequency = 130 := by
  rw [calcB, calcN_10415]; decide

lemma calcA_10415 : calcA 10415 PFDFrequency = 3 := by
  rw [calcA, calcN_10415, calcB_10415]; decide

/-- Concrete evaluation of the feedback latch word at 10415 MHz:
`130 * 2^8 + 3 * 2^2 + 1 = 0x820D`. -/
lemma reg1Val_10415 : reg1Val 10415 PFDFrequency = 0x820D := by
  rw [reg1Val, calcB_10415, calcA_10415]; decide

/-- Concrete evaluation of the reference latch word: `0x910140`. -/
lemma reg0Val_value : reg0Val RFInputFrequency PFDFrequency = 0x910140 := by
  rw [reg0Val, calcR_value]; decide

/-- Concrete evaluation of the function latch word: `0x4D8002`. -/
lemma reg2Val_value : reg2Val = 0x4D8002 := by decide

/-- State after the first `calcRegisters` call of the sweep, used by the
C2 theorems. -/
lemma calcRegisters_first_step :
    calcRegisters 10415 RFInputFrequency PFDFrequency 0 (initState 1) =
      { N0 := [0x0D], N1 := [0x82],
        R0A := [0x40], R1A := [0x01], R2A := [0x91],
        F0A := [0], F1A := [0], F2A := [0],
        R0 := 0x40, R1 := 0x01, R2 := 0x91,
        F0 := 0x02, F1 := 0x80, F2 := 0x4D } := by
  rw [calcRegisters]
  simp only [reg1Val_10415, reg0Val_value, reg2Val_value]
  decide

/-- C2 counterexample: at target 10415 MHz (reference 100 MHz, comparison
1250 MHz, the fixed configuration), the feedback-counter middle/low byte
pair `calcRegisters` stores is not `{0x83, 0x11}`, so the claimed
conjunction fails at this concrete input. -/
theorem C2_first_entry_disagrees_with_static_table :
    ¬ ((calcRegisters 10415 RFInputFrequency PFDFrequency 0 (initState 1)).N1.getD 0 0 = 0x83
       ∧ (calcRegisters 10415 RFInputFrequency PFDFrequency 0 (initState 1)).N0.getD 0 0 = 0x11
       ∧ (calcRegisters 10415 RFInputFrequency PFDFrequency 0 (initState 1)).R2 * 2 ^ 16
           + (calcRegisters 10415 RFInputFrequency PFDFrequency 0 (initState 1)).R1 * 2 ^ 8
           + (calcRegisters 10415 RFInputFrequency PFDFrequency 0 (initState 1)).R0 = 0x910140
       ∧ (calcRegisters 10415 RFInputFrequency PFDFrequency 0 (initState 1)).F2 * 2 ^ 16
           + (calcRegisters 10415 RFInputFrequency PFDFrequency 0 (initState 1)).F1 * 2 ^ 8
           + (calcRegisters 10415 RFInputFrequency PFDFrequency 0 (initState 1)).F0 = 0x4D8002) := by
  rw [calcRegisters_first_step]
  decide

/-- C2 (amended): for target 10415 MHz, reference 100 MHz, comparison
1250 MHz, prescaler index 1, charge-pump settings {3,3}, other selectors 0
except test-mode = 1, `calcRegisters` produces the feedback middle/low
byte pair `{0x82, 0x0D}`, the reference word `0x910140` and the function
word `0x4D8002`. -/
theorem C2_register_values_at_10415 :
    (calcRegisters 10415 RFInputFrequency PFDFrequency 0 (initState 1)).N1.getD 0 0 = 0x82
    ∧ (calcRegisters 10415 RFInputFrequency PFDFrequency 0 (initState 1)).N0.getD 0 0 = 0x0D
    ∧ (calcRegisters 10415 RFInputFrequency PFDFrequency 0 (initState 1)).R2 * 2 ^ 16
        + (calcRegisters 10415 RFInputFrequency PFDFrequency 0 (initState 1)).R1 * 2 ^ 8
        + (calcRegisters 10415 RFInputFrequency PFDFrequency 0 (initState 1)).R0 = 0x910140
    ∧ (calcRegisters 10415 RFInputFrequency PFDFrequency 0 (initState 1)).F2 * 2 ^ 16
        + (calcRegisters 10415 RFInputFrequency PFDFrequency 0 (initState 1)).F1 * 2 ^ 8
        + (calcRegisters 10415 RFInputFrequency PFDFrequency 0 (initState 1)).F0 = 0x4D8002 := by
  rw [calcRegisters_first_step]
  decide

/-- C3: for positive target, reference and comparison frequencies,
`calcRegisters` computes its counters exactly as `effectiveOut =
targetFreq/4`, `P = 2^prescalerIndex * 8`, `R = floor(refFreq*1000/pfd)`,
`N = floor(effectiveOut*1000/pfd)`, `B = trunc(N/P)`, `A = N - B*P`, with
the float-to-int casts truncating toward zero (equal to `floor` on these
nonnegative values), so that `N = B*P + A`. -/
theorem C3_counter_arithmetic (RFOutFreqBox RefFreqBox PFDFreqBox : ℚ)
    (h1 : 0 < RFOutFreqBox) (h2 : 0 < RefFreqBox) (h3 : 0 < PFDFreqBox) :
    effectiveRFout RFOutFreqBox = RFOutFreqBox / 4
    ∧ calcP = 2 ^ PrescalerBoxIndex * 8
    ∧ calcR RefFreqBox PFDFreqBox = ⌊RefFreqBox * 1000 / PFDFreqBox⌋
    ∧ calcN RFOutFreqBox PFDFreqBox = ⌊effectiveRFout RFOutFreqBox * 1000 / PFDFreqBox⌋
    ∧ calcB RFOutFreqBox PFDFreqBox = Int.tdiv (calcN RFOutFreqBox PFDFreqBox) calcP
    ∧ calcA RFOutFreqBox PFDFreqBox
        = calcN RFOutFreqBox PFDFreqBox - calcB RFOutFreqBox PFDFreqBox * calcP
    ∧ calcN RFOutFreqBox PFDFreqBox
        = calcB RFOutFreqBox PFDFreqBox * calcP + calcA RFOutFreqBox PFDFreqBox := by
  refine ⟨rfl, rfl, ?_, ?_, rfl, rfl, ?_⟩
  · rw [calcR, cint, if_pos (div_nonneg (mul_nonneg h2.le (by norm_num)) h3.le)]
  · have hpos : (0:ℚ) ≤ effectiveRFout RFOutFreqBox * 1000 / PFDFreqBox :=
      div_nonneg
        (mul_nonneg (by rw [effectiveRFout]; exact div_nonneg h1.le (by norm_num))
          (by norm_num)) h3.le
    rw [calcN, cint, if_pos hpos]
  · rw [calcA]; ring

theorem C3_counter_arithmetic_witness :
    (0:ℚ) < 10415 ∧ (0:ℚ) < 100 ∧ (0:ℚ) < 1250
    ∧ calcN 10415 1250 = calcB 10415 1250 * calcP + calcA 10415 1250 :=
  ⟨by norm_num, by norm_num, by norm_num,
   (C3_counter_arithmetic 10415 100 1250 (by norm_num) (by norm_num)
     (by norm_num)).2.2.2.2.2.2⟩

/-- C4: for every input, the two least-significant bits of the computed
reference word are `0b00`, of the feedback word `0b01`, of the function
word `0b10`: the destination tag is fixed by the latch kind, independent
of the payload fields. -/
theorem C4_destination_tags (RFOutFreqBox RefFreqBox PFDFreqBox : ℚ) :
    reg0Val RefFreqBox PFDFreqBox % 4 = 0
    ∧ reg1Val RFOutFreqBox PFDFreqBox % 4 = 1
    ∧ reg2Val % 4 = 2 := by
  refine ⟨?_, ?_, by decide⟩
  · rw [reg0Val]
    generalize intMask (calcR RefFreqBox PFDFreqBox) 0x3FFF = a
    omega
  · rw [reg1Val]
    generalize intMask (calcB RFOutFreqBox PFDFreqBox) 0x1FFF = a
    generalize intMask (calcA RFOutFreqBox PFDFreqBox) 0x3F = b
    rw [ChargePumpGainBoxSelectedIndex]
    omega

/-- C8: every `SPIwrite24bitRegister` call produces exactly this effect
sequence: the three bytes most-significant byte first over SPI (configured
`MSBFIRST`, `MODE0`: clock idle low, data sampled on the rising edge),
then latch-enable asserted with the sync line high iff `NewFrame`, held
for `PULSE_DURATION`, then both lines de-asserted, then an idle of
`DWELL_TIME - PULSE_DURATION` before returning. -/
theorem C8_transmitter_effect_sequence (b23to16 b15to8 b7to0 : ℕ)
    (NewFrame : Bool) (st : PLLState) :
    SPIwrite24bitRegister b23to16 b15to8 b7to0 NewFrame =
      [Event.spiByte b23to16, Event.spiByte b15to8, Event.spiByte b7to0,
       Event.portWrite true NewFrame,
       Event.delayUs PULSE_DURATION,
       Event.portWrite false false,
       Event.delayUs (DWELL_TIME - PULSE_DURATION)]
    ∧ Event.spiSetBitOrder BitOrder.MSBFIRST ∈ setupOkTrace st
    ∧ Event.spiSetDataMode DataMode.MODE0 ∈ setupOkTrace st
    ∧ PULSE_DURATION + (DWELL_TIME - PULSE_DURATION) = DWELL_TIME := by
  refine ⟨rfl, ?_, ?_, by decide⟩
  · simp [setupOkTrace]
  · simp [setupOkTrace]

/-- C5: one iteration of `loop` over a table of length `N ≥ 1` issues
exactly `N + 1` feedback transmissions before the inter-pass pause: the
`N` table entries in order with `NewFrame` true only on the first, then
one re-transmission of the first entry with `NewFrame` false, and the
pass trace places `delayer(SWEEP_PAUSE)` after all of them. -/
theorem C5_pass_structure (s : PLLState) (h : 1 ≤ s.N0.length) :
    (loopPassCalls s).length = s.N0.length + 1
    ∧ (∀ j, j < s.N0.length →
        (loopPassCalls s).getD j dummyTx =
          { b23to16 := N2, b15to8 := s.N1.getD j 0, b7to0 := s.N0.getD j 0,
            NewFrame := j == 0 })
    ∧ (∀ j, j < (loopPassCalls s).length →
        (((loopPassCalls s).getD j dummyTx).NewFrame = true ↔ j = 0))
    ∧ (loopPassCalls s).getD s.N0.length dummyTx =
        { b23to16 := N2, b15to8 := s.N1.getD 0 0, b7to0 := s.N0.getD 0 0,
          NewFrame := false }
    ∧ loopPassTrace s = (loopPassCalls s).flatMap txTrace ++ delayer SWEEP_PAUSE := by
  have hlen : (loopPassCalls s).length = s.N0.length + 1 := by
    simp [loopPassCalls]
  have hmaplen :
      (((List.range s.N0.length).map fun i =>
        ({ b23to16 := N2, b15to8 := s.N1.getD i 0, b7to0 := s.N0.getD i 0,
           NewFrame := i == 0 } : FeedbackTx)) : List FeedbackTx).length
        = s.N0.length := by
    simp
  have hentry : ∀ j, j < s.N0.length →
      (loopPassCalls s).getD j dummyTx =
        { b23to16 := N2, b15to8 := s.N1.getD j 0, b7to0 := s.N0.getD j 0,
          NewFrame := j == 0 } := by
    intro j hj
    rw [loopPassCalls, List.getD_append _ _ _ _ (by rw [hmaplen]; exact hj)]
    exact range_map_getD _ _ _ _ hj
  have hlast : (loopPassCalls s).getD s.N0.length dummyTx =
      { b23to16 := N2, b15to8 := s.N1.getD 0 0, b7to0 := s.N0.getD 0 0,
        NewFrame := false } := by
    rw [loopPassCalls, List.getD_append_right _ _ _ _ hmaplen.le, hmaplen,
      Nat.sub_self]
    rfl
  refine ⟨hlen, hentry, ?_, hlast, rfl⟩
  intro j hj
  rw [hlen] at hj
  rcases Nat.lt_succ_iff_lt_or_eq.mp hj with hj' | hj'
  · rw [hentry j hj']
    exact beq_iff_eq
  · subst hj'
    rw [hlast]
    constructor
    · intro hb
      simp at hb
    · intro h0
      omega

theorem C5_pass_structure_witness :
    1 ≤ (initState 2).N0.length
    ∧ (loopPassCalls (initState 2)).length = (initState 2).N0.length + 1 :=
  ⟨by decide, (C5_pass_structure (initState 2) (by decide)).1⟩

/-- C10: every feedback transmission the main loop issues carries
most-significant byte `N2 = 0x00`, for every table state; consequently the
24-bit value on the wire is the computed feedback register value modulo
`2^16` — bits 16 through 23 (including the charge-pump-gain field at bit
21) are never transmitted. -/
theorem C10_feedback_msb_zero (s : PLLState) (c : FeedbackTx)
    (hc : c ∈ loopPassCalls s) :
    c.b23to16 = N2 ∧ N2 = 0
    ∧ (∀ x : ℕ, N2 * 2 ^ 16 + lowByte (x / 2 ^ 8) * 2 ^ 8 + lowByte x = x % 2 ^ 16) := by
  refine ⟨?_, rfl, ?_⟩
  · rcases List.mem_append.1 hc with h | h
    · rcases List.mem_map.1 h with ⟨i, _, rfl⟩
      rfl
    · rw [List.mem_singleton.1 h]
  · intro x
    simp only [N2, lowByte]
    omega

theorem C10_feedback_msb_zero_witness :
    ({ b23to16 := 0, b15to8 := 0, b7to0 := 0, NewFrame := true } : FeedbackTx)
      ∈ loopPassCalls (initState 1)
    ∧ ({ b23to16 := 0, b15to8 := 0, b7to0 := 0, NewFrame := true } : FeedbackTx).b23to16 = N2 :=
  ⟨by decide, (C10_feedback_msb_zero (initState 1) _ (by decide)).1⟩

/-- C9: `calcRegisters` never touches `F0A`, `F1A`, `F2A` (they keep
whatever values they hold — in the program, their zero initialisation);
all array cells other than index `i` are unchanged, and for `i ≠ 0` the
scalars `R0..R2`, `F0..F2` are unchanged as well. -/
theorem C9_calcRegisters_frame (RFOutFreqBox RefFreqBox PFDFreqBox : ℚ)
    (i : ℕ) (s : PLLState) :
    (calcRegisters RFOutFreqBox RefFreqBox PFDFreqBox i s).F0A = s.F0A
    ∧ (calcRegisters RFOutFreqBox RefFreqBox PFDFreqBox i s).F1A = s.F1A
    ∧ (calcRegisters RFOutFreqBox RefFreqBox PFDFreqBox i s).F2A = s.F2A
    ∧ (∀ j, j ≠ i →
        (calcRegisters RFOutFreqBox RefFreqBox PFDFreqBox i s).N0.getD j 0 = s.N0.getD j 0
        ∧ (calcRegisters RFOutFreqBox RefFreqBox PFDFreqBox i s).N1.getD j 0 = s.N1.getD j 0
        ∧ (calcRegisters RFOutFreqBox RefFreqBox PFDFreqBox i s).R0A.getD j 0 = s.R0A.getD j 0
        ∧ (calcRegisters RFOutFreqBox RefFreqBox PFDFreqBox i s).R1A.getD j 0 = s.R1A.getD j 0
        ∧ (calcRegisters RFOutFreqBox RefFreqBox PFDFreqBox i s).R2A.getD j 0 = s.R2A.getD j 0)
    ∧ (i ≠ 0 →
        (calcRegisters RFOutFreqBox RefFreqBox PFDFreqBox i s).R0 = s.R0
        ∧ (calcRegisters RFOutFreqBox RefFreqBox PFDFreqBox i s).R1 = s.R1
        ∧ (calcRegisters RFOutFreqBox RefFreqBox PFDFreqBox i s).R2 = s.R2
        ∧ (calcRegisters RFOutFreqBox RefFreqBox PFDFreqBox i s).F0 = s.F0
        ∧ (calcRegisters RFOutFreqBox RefFreqBox PFDFreqBox i s).F1 = s.F1
        ∧ (calcRegisters RFOutFreqBox RefFreqBox PFDFreqBox i s).F2 = s.F2) := by
  by_cases hi : i = 0
  · subst hi
    refine ⟨rfl, rfl, rfl, ?_, fun h => absurd rfl h⟩
    intro j hj
    exact ⟨set_getD_ne _ _ _ _ (Ne.symm hj), set_getD_ne _ _ _ _ (Ne.symm hj),
      set_getD_ne _ _ _ _ (Ne.symm hj), set_getD_ne _ _ _ _ (Ne.symm hj),
      set_getD_ne _ _ _ _ (Ne.symm hj)⟩
  · refine ⟨?_, ?_, ?_, ?_, ?_⟩
    · simp [calcRegisters, hi]
    · simp [calcRegisters, hi]
    · simp [calcRegisters, hi]
    · intro j hj
      refine ⟨?_, ?_, ?_, ?_, ?_⟩ <;>
        simp [calcRegisters, hi, List.getElem?_set_ne (Ne.symm hj)]
    · intro _
      refine ⟨?_, ?_, ?_, ?_, ?_, ?_⟩ <;> simp [calcRegisters, hi]

theorem C9_calcRegisters_frame_witness :
    (calcRegisters 10415 RFInputFrequency PFDFrequency 1 (initState 2)).F0A
        = (initState 2).F0A
    ∧ (calcRegisters 10415 RFInputFrequency PFDFrequency 1 (initState 2)).N0.getD 0 0
        = (initState 2).N0.getD 0 0
    ∧ (calcRegisters 10415 RFInputFrequency PFDFrequency 1 (initState 2)).F0
        = (initState 2).F0 :=
  ⟨(C9_calcRegisters_frame 10415 RFInputFrequency PFDFrequency 1 (initState 2)).1,
   ((C9_calcRegisters_frame 10415 RFInputFrequency PFDFrequency 1 (initState 2)).2.2.2.1
     0 (by decide)).1,
   ((C9_calcRegisters_frame 10415 RFInputFrequency PFDFrequency 1 (initState 2)).2.2.2.2
     (by decide)).2.2.2.1⟩

/-! ## The validation pass on a nonempty frequency list -/

lemma lowByte_reg2Val : lowByte reg2Val = 2 := by decide

lemma replicate_succ_set_getD (n v : ℕ) :
    ((List.replicate (n + 1) 0).set 0 v).getD 0 0 = v := by
  rw [List.replicate_succ, List.set_cons_zero, List.getD_cons_zero]

lemma replicate_succ_getD (n : ℕ) :
    (List.replicate (n + 1) (0:ℕ)).getD 0 0 = 0 := by
  rw [List.replicate_succ, List.getD_cons_zero]

lemma step0_R0 (f : ℚ) (n : ℕ) :
    (calcRegisters f RFInputFrequency PFDFrequency 0 (initState (n + 1))).R0
      = lowByte (reg0Val RFInputFrequency PFDFrequency) := by
  simp [calcRegisters]

lemma step0_R1 (f : ℚ) (n : ℕ) :
    (calcRegisters f RFInputFrequency PFDFrequency 0 (initState (n + 1))).R1
      = lowByte (reg0Val RFInputFrequency PFDFrequency / 2 ^ 8) := by
  simp [calcRegisters]

lemma step0_R2 (f : ℚ) (n : ℕ) :
    (calcRegisters f RFInputFrequency PFDFrequency 0 (initState (n + 1))).R2
      = lowByte (reg0Val RFInputFrequency PFDFrequency / 2 ^ 16) := by
  simp [calcRegisters]

lemma step0_F0 (f : ℚ) (n : ℕ) :
    (calcRegisters f RFInputFrequency PFDFrequency 0 (initState (n + 1))).F0
      = lowByte reg2Val := by
  simp [calcRegisters]

lemma step0_R0A (f : ℚ) (n : ℕ) :
    (calcRegisters f RFInputFrequency PFDFrequency 0 (initState (n + 1))).R0A
      = (List.replicate (n + 1) 0).set 0 (lowByte (reg0Val RFInputFrequency PFDFrequency)) := by
  simp [calcRegisters, initState]

lemma step0_R1A (f : ℚ) (n : ℕ) :
    (calcRegisters f RFInputFrequency PFDFrequency 0 (initState (n + 1))).R1A
      = (List.replicate (n + 1) 0).set 0 (lowByte (reg0Val RFInputFrequency PFDFrequency / 2 ^ 8)) := by
  simp [calcRegisters, initState]

lemma step0_R2A (f : ℚ) (n : ℕ) :
    (calcRegisters f RFInputFrequency PFDFrequency 0 (initState (n + 1))).R2A
      = (List.replicate (n + 1) 0).set 0 (lowByte (reg0Val RFInputFrequency PFDFrequency / 2 ^ 16)) := by
  simp [calcRegisters, initState]

lemma step0_F0A (f : ℚ) (n : ℕ) :
    (calcRegisters f RFInputFrequency PFDFrequency 0 (initState (n + 1))).F0A
      = List.replicate (n + 1) 0 := by
  simp [calcRegisters, initState]

/-- On any nonempty frequency list, the very first iteration of the
`setup` validation loop reports the function-latch failure: the scalars
`F0..F2` captured at step 0 hold the bytes of `reg2Val`, while
`F0A..F2A[0]` were never written by `calcRegisters` and still hold 0. -/
lemma validateRun_cons_fatal (f : ℚ) (fs : List ℚ) :
    outcomeMsg (validateRun (f :: fs)) = some FailMsg.functionLatchChanged := by
  have hR0 : (calcRegisters f RFInputFrequency PFDFrequency 0 (initState (fs.length + 1))).R0
      = (calcRegisters f RFInputFrequency PFDFrequency 0 (initState (fs.length + 1))).R0A.getD 0 0 := by
    rw [step0_R0 f fs.length, step0_R0A f fs.length, replicate_succ_set_getD]
  have hR1 : (calcRegisters f RFInputFrequency PFDFrequency 0 (initState (fs.length + 1))).R1
      = (calcRegisters f RFInputFrequency PFDFrequency 0 (initState (fs.length + 1))).R1A.getD 0 0 := by
    rw [step0_R1 f fs.length, step0_R1A f fs.length, replicate_succ_set_getD]
  have hR2 : (calcRegisters f RFInputFrequency PFDFrequency 0 (initState (fs.length + 1))).R2
      = (calcRegisters f RFInputFrequency PFDFrequency 0 (initState (fs.length + 1))).R2A.getD 0 0 := by
    rw [step0_R2 f fs.length, step0_R2A f fs.length, replicate_succ_set_getD]
  have hF : (calcRegisters f RFInputFrequency PFDFrequency 0 (initState (fs.length + 1))).F0
      ≠ (calcRegisters f RFInputFrequency PFDFrequency 0 (initState (fs.length + 1))).F0A.getD 0 0 := by
    rw [step0_F0 f fs.length, step0_F0A f fs.length, replicate_succ_getD, lowByte_reg2Val]
    omega
  rw [validateRun]
  simp only [validateLoop, List.length_cons]
  rw [if_neg (by push_neg; exact ⟨hR0, hR1, hR2⟩), if_pos (Or.inl hF)]
  rfl

/-- C1: the `setup` consistency check cannot report success on a
sweep table whose recomputed reference and function words are all equal:
the per-step recomputed function word is the constant `reg2Val` for every
step (first conjunct), yet on every nonempty frequency list the check
reports the function-latch failure and halts (second conjunct), because
`calcRegisters` populates `R0A/R1A/R2A` but never `F0A/F1A/F2A`, and the
check compares `F0..F2` against those still-zero arrays. -/
theorem C1_consistency_check_misreports_constant_function_latch
    (f : ℚ) (fs : List ℚ) :
    (∀ g : ℚ, ∀ s : PLLState,
        (calcRegisters g RFInputFrequency PFDFrequency 0 s).F0 = lowByte reg2Val
        ∧ (calcRegisters g RFInputFrequency PFDFrequency 0 s).F1 = lowByte (reg2Val / 2 ^ 8)
        ∧ (calcRegisters g RFInputFrequency PFDFrequency 0 s).F2 = lowByte (reg2Val / 2 ^ 16))
    ∧ outcomeMsg (validateRun (f :: fs)) = some FailMsg.functionLatchChanged := by
  refine ⟨?_, validateRun_cons_fatal f fs⟩
  intro g s
  refine ⟨?_, ?_, ?_⟩ <;> simp [calcRegisters]

/-- C6: whenever the validation pass reports a mismatch, the whole run's
observable trace ends at the diagnostic: the report is the last event, and
no event of the run drives the bus (no SPI byte, no latch-enable or sync
assertion) — an inconsistent program is never transmitted. -/
theorem C6_fatal_halt_silences_bus (fs : List ℚ) (passes : ℕ) (m : FailMsg)
    (h : outcomeMsg (validateRun fs) = some m) :
    programTrace fs passes = preEvents ++ [Event.serialPrint m]
    ∧ (programTrace fs passes).getLast? = some (Event.serialPrint m)
    ∧ ∀ e ∈ programTrace fs passes, busDrive e = false := by
  obtain ⟨st, hst⟩ : ∃ st, validateRun fs = SetupOutcome.fatal m st := by
    cases hv : validateRun fs with
    | fatal mm st =>
      rw [hv] at h
      simp only [outcomeMsg, Option.some.injEq] at h
      subst h
      exact ⟨st, rfl⟩
    | ok st =>
      rw [hv] at h
      simp [outcomeMsg] at h
  have htr : programTrace fs passes = preEvents ++ [Event.serialPrint m] := by
    simp only [programTrace, hst]
  refine ⟨htr, ?_, ?_⟩
  · rw [htr]
    rfl
  · rw [htr]
    intro e he
    simp [preEvents] at he
    rcases he with rfl | rfl | rfl | rfl <;> rfl

theorem C6_fatal_halt_silences_bus_witness :
    outcomeMsg (validateRun freqVec) = some FailMsg.functionLatchChanged
    ∧ programTrace freqVec 2
        = preEvents ++ [Event.serialPrint FailMsg.functionLatchChanged] := by
  have h : outcomeMsg (validateRun freqVec) = some FailMsg.functionLatchChanged :=
    validateRun_cons_fatal 10415 _
  exact ⟨h, (C6_fatal_halt_silences_bus freqVec 2 FailMsg.functionLatchChanged h).1⟩

/-- C7: once validation passes, `setup` configures SPI (`MSBFIRST`,
`MODE0`, clock divider 2), pauses, then transmits the function word once
and the reference word once — each, exactly like
`SPIwrite24bitRegister` with `NewFrame = false`, followed by the
latch-enable pulse and the remaining `DWELL_TIME - PULSE_DURATION` idle
(one full inter-word delay in total) — with the sync line never asserted,
and every feedback transmission of the run comes strictly later. -/
theorem C7_init_transmits_function_then_reference (fs : List ℚ)
    (passes : ℕ) (st : PLLState) (h : validateRun fs = SetupOutcome.ok st) :
    programTrace fs passes =
      preEvents ++ setupOkTrace st
        ++ (List.replicate passes (loopPassTrace st)).flatten
    ∧ setupOkTrace st =
        [Event.spiBegin, Event.spiSetBitOrder BitOrder.MSBFIRST,
         Event.spiSetDataMode DataMode.MODE0, Event.spiSetClockDiv 2]
          ++ delayer SWEEP_PAUSE
          ++ SPIwrite24bitRegister st.F2 st.F1 st.F0 false
          ++ SPIwrite24bitRegister st.R2 st.R1 st.R0 false
    ∧ (∀ le : Bool, Event.portWrite le true ∉ setupOkTrace st)
    ∧ PULSE_DURATION + (DWELL_TIME - PULSE_DURATION) = DWELL_TIME := by
  refine ⟨?_, ?_, ?_, by decide⟩
  · simp only [programTrace, h]
  · simp [setupOkTrace, SPIwrite24bitRegister, delayer]
  · intro le
    simp [setupOkTrace, delayer, DO_LONG_DELAY]

theorem C7_init_transmits_function_then_reference_witness :
    validateRun [] = SetupOutcome.ok (initState 0)
    ∧ programTrace [] 1 =
        preEvents ++ setupOkTrace (initState 0)
          ++ (List.replicate 1 (loopPassTrace (initState 0))).flatten :=
  ⟨rfl, (C7_init_transmits_function_then_reference [] 1 (initState 0) rfl).1⟩
